import Mathlib

/-!
Verification development for the LinuxAudioRecorder repository.

The repository has two variants of a PulseAudio recording orchestrator:

* `audio_recorder.py` — a D-Bus service (`AudioRecorderService`) around an
  `AudioRecorder` object holding `is_recording`, `current_recording` and a
  `modules` list of loaded PulseAudio module handles, plus a JSON `Config`.
* `simple_test.py` — a CLI script with `setup_recording`, `record_audio`
  (shelling out to `parec`), `cleanup_modules` and a `main` entry point.

The sound server (PulseAudio) is external: it is modelled by an environment
`PulseEnv` giving the outcome of each successive `module_load` call and the
outcome of `module_unload` per handle.  State-changing operations are embedded
as explicit state-passing functions that also emit a trace of the external
calls they make (`Event`), so that properties such as "every handle obtained
is released exactly once" are statements about the trace.
-/

/-! ### Decimal rendering (Python `str` on a non-negative int, `strftime` padding) -/

/-- Value of a decimal digit character (inverse of `Nat.digitChar` below 10). -/
def digitVal (c : Char) : Nat := c.toNat - 48

/-- Fuel-based decimal digit accumulation, mirroring CPython's base-10 `str(int)`
for non-negative integers (most significant digit first, no padding, no sign). -/
def natCharsAux : Nat → Nat → List Char → List Char
  | 0, _, acc => acc
  | fuel + 1, n, acc =>
      if n < 10 then Nat.digitChar n :: acc
      else natCharsAux fuel (n / 10) (Nat.digitChar (n % 10) :: acc)

/-- Decimal rendering of a natural number, as Python `str` produces it. -/
def natChars (n : Nat) : List Char := natCharsAux (n + 1) n []

/-- Python `str(n)` for a non-negative integer `n`. -/
def str_of_nat (n : Nat) : String := ⟨natChars n⟩

/-! ### Timestamps and output filenames

`datetime.now().strftime('%Y%m%d_%H%M%S')` is modelled on a broken-down
calendar time.  `strftime` zero-pads `%m %d %H %M %S` to two digits and
renders `%Y` as the full year (four digits for the years 1000–9999 a real
clock produces). -/

structure DateTime where
  year : Nat
  month : Nat
  day : Nat
  hour : Nat
  minute : Nat
  second : Nat
deriving DecidableEq, Repr

/-- Field ranges of a real calendar time (year restricted to four digits,
which holds for every time a system clock can report in 1000–9999). -/
def DateTime.valid (t : DateTime) : Prop :=
  1000 ≤ t.year ∧ t.year ≤ 9999 ∧ 1 ≤ t.month ∧ t.month ≤ 12 ∧
  1 ≤ t.day ∧ t.day ≤ 31 ∧ t.hour ≤ 23 ∧ t.minute ≤ 59 ∧ t.second ≤ 59

instance (t : DateTime) : Decidable t.valid := by
  unfold DateTime.valid; infer_instance

/-- Two-digit zero-padded decimal field (`%m`, `%d`, `%H`, `%M`, `%S`). -/
def pad2 (n : Nat) : List Char := [Nat.digitChar (n / 10 % 10), Nat.digitChar (n % 10)]

/-- Four-digit decimal year field (`%Y` for years 1000–9999). -/
def pad4 (n : Nat) : List Char :=
  [Nat.digitChar (n / 1000 % 10), Nat.digitChar (n / 100 % 10),
   Nat.digitChar (n / 10 % 10), Nat.digitChar (n % 10)]

/-- `strftime('%Y%m%d_%H%M%S')` as a character list. -/
def timestamp_data (t : DateTime) : List Char :=
  pad4 t.year ++ pad2 t.month ++ pad2 t.day ++ '_' ::
    (pad2 t.hour ++ pad2 t.minute ++ pad2 t.second)

/-- The literal characters of `recording_`. -/
def recording_lit : List Char := ['r','e','c','o','r','d','i','n','g','_']

/-- Settings of the D-Bus variant's recorder that the recording path uses
(`self.config.settings['output_dir']` and `['format']`). -/
structure RecSettings where
  output_dir : String
  format : String
  sample_rate : Nat
  channels : Nat
deriving DecidableEq, Repr

/-- `AudioRecorder.generate_filename`: `Path(output_dir) / f'recording_{timestamp}.{format}'`,
as a character list (`Path./` inserts a path separator). -/
def generate_filename_data (cfg : RecSettings) (t : DateTime) : List Char :=
  cfg.output_dir.data ++ '/' :: (recording_lit ++ timestamp_data t ++ '.' :: cfg.format.data)

/-- `AudioRecorder.generate_filename` as a string. -/
def generate_filename (cfg : RecSettings) (t : DateTime) : String :=
  ⟨generate_filename_data cfg t⟩

/-- The CLI variant's output file, `Path(output_dir) / f'recording_{timestamp}.wav'`
(`simple_test.main`; the extension is the CLI config's container format, which
`main` never overrides from its default `wav`). -/
def cli_output_file_data (output_dir : String) (t : DateTime) : List Char :=
  output_dir.data ++ '/' :: (recording_lit ++ timestamp_data t ++ '.' :: ['w','a','v'])

def cli_output_file (output_dir : String) (t : DateTime) : String :=
  ⟨cli_output_file_data output_dir t⟩

/-! ### The PulseAudio environment and call traces

`pulsectl.Pulse` is external.  `load i` is the outcome of the `i`-th
`module_load` call made on the connection (`some h` returns handle `h`,
`none` raises `PulseError`); `unloadOk h` tells whether `module_unload h`
succeeds or raises `PulseError`. -/

structure PulseEnv where
  load : Nat → Option Nat
  unloadOk : Nat → Bool

/-- Externally visible calls made by the recorder: a successful `module_load`
returning a handle, a `module_unload` attempt on a handle (with its outcome),
and a call to `generate_filename` producing an output path. -/
inductive Event where
  | load (handle : Nat)
  | unload (handle : Nat) (ok : Bool)
  | genName (name : String)
deriving DecidableEq, Repr

/-- Handles for which a `module_unload` call was attempted, in order. -/
def unloadCalls (evs : List Event) : List Nat :=
  evs.filterMap fun e =>
    match e with
    | .unload h _ => some h
    | _ => none

/-- Handles returned by successful `module_load` calls, in order. -/
def loadCalls (evs : List Event) : List Nat :=
  evs.filterMap fun e =>
    match e with
    | .load h => some h
    | _ => none

/-- Output paths produced by `generate_filename` calls. -/
def genNameCalls (evs : List Event) : List String :=
  evs.filterMap fun e =>
    match e with
    | .genName s => some s
    | _ => none

/-- Mutable state of an `AudioRecorder` instance: `is_recording`,
`current_recording` and the `modules` handle list. -/
structure RecorderState where
  is_recording : Bool
  current_recording : Option String
  modules : List Nat
deriving DecidableEq, Repr

/-- The state a fresh `AudioRecorder.__init__` leaves behind. -/
def initialState : RecorderState := ⟨false, none, []⟩

/-- Result of one recorder operation: the new state, the number of
`module_load` calls made so far on the connection, the trace of external
calls this operation made, and its return value. -/
structure OpResult (α : Type) where
  state : RecorderState
  k : Nat
  trace : List Event
  ret : α
deriving DecidableEq, Repr

/-- `AudioRecorder.cleanup`: attempt `module_unload` on every tracked module,
swallowing per-handle `PulseError`, then clear the list and reset
`is_recording` and `current_recording`. -/
def cleanup (env : PulseEnv) (s : RecorderState) : RecorderState × List Event :=
  (⟨false, none, []⟩, s.modules.map fun h => Event.unload h (env.unloadOk h))

/-- `AudioRecorder.setup_combined_recording`: three `module_load` calls
(`module-combine-sink`, `module-loopback`, `module-combine-source`), each
handle appended to `self.modules`; a `PulseError` at any step runs
`self.cleanup()` and returns `None`, success returns the combined source
name.  The module argument strings are built from config values and the
default sink/source names and do not affect control flow or state. -/
def setup_combined_recording (env : PulseEnv) (s : RecorderState) (k : Nat) :
    OpResult (Option String) :=
  match env.load k with
  | none =>
      let c := cleanup env s
      ⟨c.1, k + 1, c.2, none⟩
  | some h1 =>
      let s1 : RecorderState := { s with modules := s.modules ++ [h1] }
      match env.load (k + 1) with
      | none =>
          let c := cleanup env s1
          ⟨c.1, k + 2, Event.load h1 :: c.2, none⟩
      | some h2 =>
          let s2 : RecorderState := { s1 with modules := s1.modules ++ [h2] }
          match env.load (k + 2) with
          | none =>
              let c := cleanup env s2
              ⟨c.1, k + 3, Event.load h1 :: Event.load h2 :: c.2, none⟩
          | some h3 =>
              ⟨{ s2 with modules := s2.modules ++ [h3] }, k + 3,
                [Event.load h1, Event.load h2, Event.load h3], some "combined_recording"⟩

/-- `AudioRecorder.start_recording`: no-op returning `False` when already
recording; otherwise build the combined graph, generate the output filename,
load `module-pipe-source` bound to that file, and set `is_recording`.  Any
failure (setup returning `None`, or `PulseError` from the fourth load) is
caught by the generic `except`, which runs `self.cleanup()` and returns
`False`. -/
def start_recording (env : PulseEnv) (cfg : RecSettings) (t : DateTime)
    (s : RecorderState) (k : Nat) : OpResult Bool :=
  if s.is_recording then ⟨s, k, [], false⟩
  else
    let r := setup_combined_recording env s k
    match r.ret with
    | none =>
        -- `raise Exception(...)` caught below: `self.cleanup()` again (already clean).
        let c := cleanup env r.state
        ⟨c.1, r.k, r.trace ++ c.2, false⟩
    | some _ =>
        let name := generate_filename cfg t
        let s2 : RecorderState := { r.state with current_recording := some name }
        match env.load r.k with
        | none =>
            let c := cleanup env s2
            ⟨c.1, r.k + 1, r.trace ++ Event.genName name :: c.2, false⟩
        | some h4 =>
            ⟨{ s2 with modules := s2.modules ++ [h4], is_recording := true }, r.k + 1,
              r.trace ++ [Event.genName name, Event.load h4], true⟩

/-- `AudioRecorder.stop_recording`: no-op returning `False` when not
recording; otherwise `self.cleanup()` and return `True` (in the embedding
`cleanup` never raises, matching the source where the only exceptions inside
it are the swallowed per-handle `PulseError`s). -/
def stop_recording (env : PulseEnv) (s : RecorderState) (k : Nat) : OpResult Bool :=
  if s.is_recording then
    let c := cleanup env s
    ⟨c.1, k, c.2, true⟩
  else ⟨s, k, [], false⟩

/-- `AudioRecorderService.GetCurrentRecording`:
`str(self.recorder.current_recording or '')`. -/
def getCurrentRecording (s : RecorderState) : String :=
  match s.current_recording with
  | none => ""
  | some p => p

/-! ### The CLI variant (`simple_test.py`) -/

/-- Settings of `AudioConfig` used by the CLI recording path. -/
structure CliSettings where
  output_dir : String
  format : String
  sample_rate : Nat
  channels : Nat
  bit_depth : String
deriving DecidableEq, Repr

/-- `simple_test.setup_recording`: five `module_load` calls
(`module-combine-sink`, `module-loopback`, `module-null-sink`, two more
`module-loopback`s), each handle bound to a local variable; on success the
list of the five handles is returned.  Any exception is caught by the single
`except`, which logs and returns `None` — no `module_unload` is attempted
for handles already obtained.  Returns the trace and the result. -/
def setup_recording (env : PulseEnv) (k : Nat) : List Event × Option (List Nat) :=
  match env.load k with
  | none => ([], none)
  | some h1 =>
    match env.load (k + 1) with
    | none => ([Event.load h1], none)
    | some h2 =>
      match env.load (k + 2) with
      | none => ([Event.load h1, Event.load h2], none)
      | some h3 =>
        match env.load (k + 3) with
        | none => ([Event.load h1, Event.load h2, Event.load h3], none)
        | some h4 =>
          match env.load (k + 4) with
          | none => ([Event.load h1, Event.load h2, Event.load h3, Event.load h4], none)
          | some h5 =>
            ([Event.load h1, Event.load h2, Event.load h3, Event.load h4, Event.load h5],
             some [h1, h2, h3, h4, h5])

/-- `simple_test.cleanup_modules`: `if modules:` (skips both `None` and an
empty list), then best-effort `module_unload` per handle with a bare
`except: pass`. -/
def cleanup_modules (env : PulseEnv) (modules : Option (List Nat)) : List Event :=
  match modules with
  | none => []
  | some ms =>
      if ms.isEmpty then []
      else ms.map fun h => Event.unload h (env.unloadOk h)

/-- The `format_flags` dictionary of `simple_test.record_audio`; `none`
models the `KeyError` a lookup with any other key raises. -/
def format_flags (bd : String) : Option (List String) :=
  if bd = "16" then some []
  else if bd = "24" then some ["--format=s24le"]
  else if bd = "32float" then some ["--format=float32le"]
  else none

/-- The fixed part of the `parec` command line built by `record_audio`,
before the bit-depth flags and the trailing output file argument. -/
def parec_base (cfg : CliSettings) (duration : Nat) : List String :=
  ["parec", "--device=recording_sink.monitor", "-d", str_of_nat duration,
   "--channels", str_of_nat cfg.channels, "--rate", str_of_nat cfg.sample_rate,
   "--file-format=wav"]

/-- The full `parec` command of `record_audio`; `none` when the bit-depth
lookup raises `KeyError` (before any subprocess is launched). -/
def record_cmd (cfg : CliSettings) (duration : Nat) (output_file : String) :
    Option (List String) :=
  (format_flags cfg.bit_depth).map fun flags => parec_base cfg duration ++ flags ++ [output_file]

/-- `simple_test.record_audio`: build the command, run it, return `True` on
exit status zero and `False` on `CalledProcessError`; `none` models the
uncaught `KeyError` on an unknown bit depth, raised before `subprocess.run`.
`subOk` is the external subprocess outcome. -/
def record_audio (subOk : Bool) (cfg : CliSettings) (duration : Nat)
    (output_file : String) : Option Bool :=
  (record_cmd cfg duration output_file).map fun _ => subOk

/-- A command-line argument that is an explicit capture format flag
(`--format=...`). -/
def isFormatArg (s : String) : Bool :=
  List.isPrefixOf ['-','-','f','o','r','m','a','t','='] s.data

/-- What happens inside `main`'s `try` block after `setup_recording`
succeeded: the recording runs to completion (with the subprocess outcome),
or a `KeyboardInterrupt` arrives somewhere inside the `try`. -/
inductive RunOutcome where
  | finished (subOk : Bool)
  | interrupted
deriving DecidableEq, Repr

/-- `simple_test.main` after argument parsing: run `setup_recording`; on
`None` print and `return 1`; otherwise build the output filename, run
`record_audio`, and return 0 on success, 1 on recording failure.  A
`KeyboardInterrupt` is caught, a message is printed, and control falls
through to the final `return 0`.  The `finally` block always runs
`cleanup_modules` (with `None` when setup failed).  Result: exit code and
full trace. -/
def cli_main (env : PulseEnv) (cfg : CliSettings) (duration : Nat) (t : DateTime)
    (outcome : RunOutcome) : Nat × List Event :=
  match setup_recording env 0 with
  | (evs, none) => (1, evs ++ cleanup_modules env none)
  | (evs, some ms) =>
    match outcome with
    | .interrupted => (0, evs ++ cleanup_modules env (some ms))
    | .finished subOk =>
      match record_audio subOk cfg duration (cli_output_file cfg.output_dir t) with
      | some true => (0, evs ++ cleanup_modules env (some ms))
      | some false => (1, evs ++ cleanup_modules env (some ms))
      | none => (1, evs ++ cleanup_modules env (some ms))

/-! ### Configuration management (`Config` in `audio_recorder.py`)

JSON scalar values are modelled by `JValue` (strings, integers and floats;
float values are carried as rationals — the merge logic never computes on
them, and `json.dump`/`json.load` round-trips scalar values).  A settings
mapping / parsed JSON object is an association list with distinct keys,
looked up by first occurrence. -/

inductive JValue where
  | jstr (v : String)
  | jint (v : Int)
  | jflo (v : Rat)
deriving DecidableEq, Repr

/-- A JSON object / Python dict as an association list. -/
def JObj : Type := List (String × JValue)

instance : DecidableEq JObj := by
  unfold JObj; infer_instance

def JObj.lookup (o : JObj) (key : String) : Option JValue :=
  List.lookup key o

/-- `Config.DEFAULT_CONFIG` (the output directory default depends on the
user's home directory, passed in as `home`). -/
def DEFAULT_CONFIG (home : String) : JObj :=
  [("output_dir", .jstr (home ++ "/Recordings")),
   ("format", .jstr "wav"),
   ("sample_rate", .jint 44100),
   ("channels", .jint 2),
   ("mic_volume", .jflo 1),
   ("system_volume", .jflo (4/5))]

/-- The known configuration keys (the keys of `DEFAULT_CONFIG`). -/
def knownKeys : List String :=
  ["output_dir", "format", "sample_rate", "channels", "mic_volume", "system_volume"]

/-- Python `{**a, **b}`: every key of `a` (values overridden by `b` where
present), followed by the keys of `b` not in `a`. -/
def dictMerge (a b : JObj) : JObj :=
  (a.map fun p => (p.1, (JObj.lookup b p.1).getD p.2)) ++
    b.filter fun p => JObj.lookup a p.1 = none

/-- `Config.load_config` on an existing, parseable config file `f`:
`self.settings = {**self.DEFAULT_CONFIG, **json.load(f)}`. -/
def load_settings (home : String) (f : JObj) : JObj :=
  dictMerge (DEFAULT_CONFIG home) f

/-- The persistent file state: `none` when the config file does not exist,
otherwise the parsed JSON object it holds. -/
def ConfigFile : Type := Option JObj

/-- `Config.load_config`: read and merge when the file exists; otherwise use
the defaults and `save_config()` them.  Returns (settings, file). -/
def load_config (home : String) (file : ConfigFile) : JObj × ConfigFile :=
  match file with
  | some f => (load_settings home f, some f)
  | none => (DEFAULT_CONFIG home, some (DEFAULT_CONFIG home))

/-- `Config.save_config`: write the current settings to the file. -/
def save_config (settings : JObj) (_file : ConfigFile) : ConfigFile :=
  some settings

/-! ### Concrete environments and inputs used in witnesses and counterexamples -/

/-- A sound server on which every `module_load` succeeds (call `i` returns
handle `i + 1`) and every unload succeeds. -/
def envAllOk : PulseEnv := ⟨fun i => some (i + 1), fun _ => true⟩

/-- A sound server on which the first two `module_load` calls succeed and
every later one raises `PulseError`. -/
def envFailThird : PulseEnv := ⟨fun i => if i < 2 then some (i + 1) else none, fun _ => true⟩

/-- A sound server on which the first `module_load` returns handle `7` and
the second raises `PulseError`. -/
def envFailSecond : PulseEnv := ⟨fun i => if i = 0 then some 7 else none, fun _ => true⟩

def cfg0 : RecSettings := ⟨"/tmp/rec", "wav", 44100, 2⟩

def cfgCli : CliSettings := ⟨"/tmp/rec", "wav", 44100, 2, "32float"⟩

def cfgCli24 : CliSettings := ⟨"/tmp/rec", "wav", 48000, 2, "24"⟩

def cfgCliBad : CliSettings := ⟨"/tmp/rec", "wav", 44100, 2, "8"⟩

def dt0 : DateTime := ⟨2025, 1, 2, 3, 4, 5⟩

def dt1 : DateTime := ⟨2025, 1, 2, 3, 4, 6⟩

/-! ## Theorems -/

/-! ### Decimal digit facts -/

theorem digitVal_digitChar (n : Nat) (h : n < 10) : digitVal (Nat.digitChar n) = n := by
  interval_cases n <;> decide

theorem digitChar_isDigit (n : Nat) (h : n < 10) : (Nat.digitChar n).isDigit := by
  interval_cases n <;> decide

theorem digitChar_inj (m n : Nat) (hm : m < 10) (hn : n < 10)
    (h : Nat.digitChar m = Nat.digitChar n) : m = n := by
  have h1 := digitVal_digitChar m hm
  have h2 := digitVal_digitChar n hn
  rw [h] at h1
  omega

theorem natCharsAux_digits (fuel : Nat) : ∀ (n : Nat) (acc : List Char),
    (∀ c ∈ acc, c.isDigit) → ∀ c ∈ natCharsAux fuel n acc, c.isDigit := by
  induction fuel with
  | zero => intro n acc hacc c hc; exact hacc c hc
  | succ fuel ih =>
      intro n acc hacc c hc
      unfold natCharsAux at hc
      split at hc
      next h =>
        rcases List.mem_cons.mp hc with h1 | h1
        · exact h1 ▸ digitChar_isDigit n h
        · exact hacc c h1
      next h =>
        refine ih (n / 10) _ ?_ c hc
        intro d hd
        rcases List.mem_cons.mp hd with h1 | h1
        · exact h1 ▸ digitChar_isDigit _ (Nat.mod_lt _ (by omega))
        · exact hacc d h1

/-- Every character of the decimal rendering is a digit. -/
theorem natChars_digits (n : Nat) : ∀ c ∈ natChars n, c.isDigit :=
  natCharsAux_digits (n + 1) n [] (by intro c hc; cases hc)

/-! ### Trace helpers -/

theorem unloadCalls_map_unload (env : PulseEnv) (l : List Nat) :
    unloadCalls (l.map fun h => Event.unload h (env.unloadOk h)) = l := by
  induction l with
  | nil => rfl
  | cons h t ih =>
      simp only [List.map_cons, unloadCalls, List.filterMap_cons] at *
      exact congrArg (h :: ·) ih

/-! ### Claim C3 -/

/-- Claim C3: whenever the recording flag is false, `stop_recording` returns
`False`, performs zero `module_unload` calls (empty trace), and leaves the
recorder state — in particular the module-handle list — unchanged. -/
theorem stop_not_recording_noop (env : PulseEnv) (s : RecorderState) (k : Nat)
    (h : s.is_recording = false) :
    stop_recording env s k = ⟨s, k, [], false⟩ := by
  simp [stop_recording, h]

/-- Witness for C3 at a concrete input. -/
theorem stop_not_recording_noop_witness :
    initialState.is_recording = false ∧
      stop_recording envAllOk initialState 0 = ⟨initialState, 0, [], false⟩ :=
  ⟨rfl, stop_not_recording_noop envAllOk initialState 0 rfl⟩

/-! ### Claim C4 -/

/-- Claim C4: the cleanup sweep (run by stop, failure unwind and the signal
handler in the D-Bus variant, and by `cleanup_modules` in the CLI variant)
attempts one `module_unload` per handle currently tracked, exactly once each
and in order, for every environment — so per-handle unload failures are
swallowed and do not stop the sweep — and afterwards the module list is
empty, the state is not-recording, and the resulting state does not depend
on which unloads failed. -/
theorem cleanup_sweep_complete (env : PulseEnv) (s : RecorderState) (ms : List Nat) :
    unloadCalls (cleanup env s).2 = s.modules ∧
    (cleanup env s).1.modules = [] ∧
    (cleanup env s).1.is_recording = false ∧
    (cleanup env s).1 = ⟨false, none, []⟩ ∧
    unloadCalls (cleanup_modules env (some ms)) = ms := by
  refine ⟨unloadCalls_map_unload env s.modules, rfl, rfl, rfl, ?_⟩
  cases ms with
  | nil => rfl
  | cons h t =>
      simp only [cleanup_modules, List.isEmpty_cons, Bool.false_eq_true, if_false]
      exact unloadCalls_map_unload env (h :: t)

/-! ### Claim C10 -/

/-- Claim C10: after a successful `stop_recording` (and after any `cleanup`
sweep) the current output path is reset to `None`, so the D-Bus method
`GetCurrentRecording` returns the empty string; the finished file's path is
no longer retrievable over IPC. -/
theorem stop_clears_current_recording (env : PulseEnv) (s : RecorderState) (k : Nat) :
    ((stop_recording env s k).ret = true →
       (stop_recording env s k).state.current_recording = none ∧
       getCurrentRecording (stop_recording env s k).state = "") ∧
    (cleanup env s).1.current_recording = none ∧
    getCurrentRecording (cleanup env s).1 = "" := by
  refine ⟨fun h => ?_, rfl, rfl⟩
  cases hrec : s.is_recording with
  | false => simp [stop_recording, hrec] at h
  | true => simp [stop_recording, hrec, cleanup, getCurrentRecording]

/-- Witness for C10: a concrete recording session stopped successfully. -/
theorem stop_clears_current_recording_witness :
    (stop_recording envAllOk ⟨true, some "/tmp/rec/recording_x.wav", [1, 2, 3, 4]⟩ 4).ret
        = true ∧
      (stop_recording envAllOk ⟨true, some "/tmp/rec/recording_x.wav", [1, 2, 3, 4]⟩ 4).state.current_recording
        = none ∧
      getCurrentRecording
          (stop_recording envAllOk ⟨true, some "/tmp/rec/recording_x.wav", [1, 2, 3, 4]⟩ 4).state
        = "" :=
  ⟨rfl,
    (stop_clears_current_recording envAllOk
        ⟨true, some "/tmp/rec/recording_x.wav", [1, 2, 3, 4]⟩ 4).1 rfl⟩

/-! ### Claim C2 -/

theorem start_ret_true_is_recording (env : PulseEnv) (cfg : RecSettings) (t : DateTime)
    (s : RecorderState) (k : Nat) (h : (start_recording env cfg t s k).ret = true) :
    (start_recording env cfg t s k).state.is_recording = true := by
  cases hif : s.is_recording with
  | true => simp [start_recording, hif]
  | false =>
      rcases hsetup : (setup_combined_recording env s k).ret with _ | v
      · simp [start_recording, hif, hsetup] at h
      · rcases hload : env.load (setup_combined_recording env s k).k with _ | h4
        · simp [start_recording, hif, hsetup, hload] at h
        · simp [start_recording, hif, hsetup, hload]

theorem start_when_recording (env : PulseEnv) (cfg : RecSettings) (t : DateTime)
    (s : RecorderState) (k : Nat) (h : s.is_recording = true) :
    start_recording env cfg t s k = ⟨s, k, [], false⟩ := by
  simp [start_recording, h]

/-- Claim C2: if a first `start_recording` call returned `True`, a second
call before any stop returns `False` and is a complete no-op: it makes no
`module_load` call, generates no second output path (empty trace, load
counter unchanged), and leaves the recorder state — flag, handle list and
current output path — exactly as the first call left it. -/
theorem second_start_noop (env env' : PulseEnv) (cfg cfg' : RecSettings)
    (t t' : DateTime) (s : RecorderState) (k k' : Nat)
    (h : (start_recording env cfg t s k).ret = true) :
    start_recording env' cfg' t' (start_recording env cfg t s k).state k' =
        ⟨(start_recording env cfg t s k).state, k', [], false⟩ ∧
      loadCalls (start_recording env' cfg' t' (start_recording env cfg t s k).state k').trace
        = [] ∧
      genNameCalls (start_recording env' cfg' t' (start_recording env cfg t s k).state k').trace
        = [] := by
  have hrec := start_ret_true_is_recording env cfg t s k h
  have hmain := start_when_recording env' cfg' t' _ k' hrec
  refine ⟨hmain, ?_, ?_⟩ <;> rw [hmain] <;> rfl

/-- Witness for C2: on a sound server where every load succeeds, a first
start from the initial state returns `True`; the theorem then applies. -/
theorem second_start_noop_witness :
    (start_recording envAllOk cfg0 dt0 initialState 0).ret = true ∧
      start_recording envAllOk cfg0 dt0 (start_recording envAllOk cfg0 dt0 initialState 0).state 4 =
        ⟨(start_recording envAllOk cfg0 dt0 initialState 0).state, 4, [], false⟩ :=
  ⟨rfl, (second_start_noop envAllOk envAllOk cfg0 cfg0 dt0 dt0 initialState 0 4 rfl).1⟩

/-! ### Claim C1 -/

/-- Counterexample to C1 as stated: on a sound server where the first
`module_load` returns handle 7 and the second fails, the CLI variant's
`setup_recording` signals failure with one handle obtained and **zero**
`module_unload` calls — the previously obtained handle is not released, so
the claim's transactional property does not hold for the CLI variant. -/
theorem cli_setup_leak_counterexample :
    (setup_recording envFailSecond 0).2 = none ∧
      loadCalls (setup_recording envFailSecond 0).1 = [7] ∧
      unloadCalls (setup_recording envFailSecond 0).1 = [] :=
  ⟨rfl, rfl, rfl⟩

/-- Claim C1 (amended): in the D-Bus variant, when the setup chain fails
(`setup_combined_recording` returns `None`, or `start_recording` returns
`False` from the initial state), every handle obtained by a `module_load`
of that chain receives exactly one `module_unload` call before failure is
signalled, and the session ends not-recording with an empty handle list.
In the CLI variant, `setup_recording` releases **none** of the handles it
obtained before an intermediate failure: it makes zero `module_unload`
calls before returning `None` (and `main`'s final `cleanup_modules` then
receives `None` and releases nothing). -/
theorem setup_failure_unwind_amended :
    (∀ (env : PulseEnv) (k : Nat),
       (setup_combined_recording env initialState k).ret = none →
       unloadCalls (setup_combined_recording env initialState k).trace =
           loadCalls (setup_combined_recording env initialState k).trace ∧
         (setup_combined_recording env initialState k).state.is_recording = false ∧
         (setup_combined_recording env initialState k).state.modules = []) ∧
    (∀ (env : PulseEnv) (cfg : RecSettings) (t : DateTime) (k : Nat),
       (start_recording env cfg t initialState k).ret = false →
       unloadCalls (start_recording env cfg t initialState k).trace =
           loadCalls (start_recording env cfg t initialState k).trace ∧
         (start_recording env cfg t initialState k).state.is_recording = false ∧
         (start_recording env cfg t initialState k).state.modules = []) ∧
    (∀ (env : PulseEnv) (k : Nat),
       (setup_recording env k).2 = none →
       unloadCalls (setup_recording env k).1 = []) := by
  refine ⟨?_, ?_, ?_⟩
  · intro env k h
    rcases h0 : env.load k with _ | h1
    · simp [setup_combined_recording, h0, cleanup, initialState, unloadCalls, loadCalls]
    · rcases h1e : env.load (k + 1) with _ | h2
      · simp [setup_combined_recording, h0, h1e, cleanup, initialState, unloadCalls, loadCalls]
      · rcases h2e : env.load (k + 2) with _ | h3
        · simp [setup_combined_recording, h0, h1e, h2e, cleanup, initialState,
            unloadCalls, loadCalls]
        · simp [setup_combined_recording, h0, h1e, h2e, initialState] at h
  · intro env cfg t k h
    rcases h0 : env.load k with _ | h1
    · simp [start_recording, setup_combined_recording, h0, cleanup, initialState,
        unloadCalls, loadCalls]
    · rcases h1e : env.load (k + 1) with _ | h2
      · simp [start_recording, setup_combined_recording, h0, h1e, cleanup, initialState,
          unloadCalls, loadCalls]
      · rcases h2e : env.load (k + 2) with _ | h3
        · simp [start_recording, setup_combined_recording, h0, h1e, h2e, cleanup,
            initialState, unloadCalls, loadCalls]
        · rcases h3e : env.load (k + 3) with _ | h4
          · simp [start_recording, setup_combined_recording, h0, h1e, h2e, h3e, cleanup,
              initialState, unloadCalls, loadCalls]
          · simp [start_recording, setup_combined_recording, h0, h1e, h2e, h3e,
              initialState] at h
  · intro env k h
    rcases h0 : env.load k with _ | h1
    · simp [setup_recording, h0, unloadCalls]
    · rcases h1e : env.load (k + 1) with _ | h2
      · simp [setup_recording, h0, h1e, unloadCalls]
      · rcases h2e : env.load (k + 2) with _ | h3
        · simp [setup_recording, h0, h1e, h2e, unloadCalls]
        · rcases h3e : env.load (k + 3) with _ | h4
          · simp [setup_recording, h0, h1e, h2e, h3e, unloadCalls]
          · rcases h4e : env.load (k + 4) with _ | h5
            · simp [setup_recording, h0, h1e, h2e, h3e, h4e, unloadCalls]
            · simp [setup_recording, h0, h1e, h2e, h3e, h4e] at h

/-- Witness for the amended C1, on a sound server whose third `module_load`
fails: both D-Bus entry points unwind, and the CLI setup releases nothing. -/
theorem setup_failure_unwind_amended_witness :
    ((setup_combined_recording envFailThird initialState 0).ret = none ∧
       unloadCalls (setup_combined_recording envFailThird initialState 0).trace =
         loadCalls (setup_combined_recording envFailThird initialState 0).trace) ∧
      ((start_recording envFailThird cfg0 dt0 initialState 0).ret = false ∧
        (start_recording envFailThird cfg0 dt0 initialState 0).state.modules = []) ∧
      ((setup_recording envFailThird 0).2 = none ∧
        unloadCalls (setup_recording envFailThird 0).1 = []) :=
  ⟨⟨rfl, (setup_failure_unwind_amended.1 envFailThird 0 rfl).1⟩,
    ⟨rfl, (setup_failure_unwind_amended.2.1 envFailThird cfg0 dt0 0 rfl).2.2⟩,
    ⟨rfl, setup_failure_unwind_amended.2.2 envFailThird 0 rfl⟩⟩

/-! ### Claim C7 -/

theorem pad2_digits (n : Nat) : ∀ c ∈ pad2 n, c.isDigit := by
  intro c hc
  simp only [pad2, List.mem_cons, List.not_mem_nil, or_false] at hc
  rcases hc with h | h <;> subst h <;> exact digitChar_isDigit _ (Nat.mod_lt _ (by omega))

theorem pad4_digits (n : Nat) : ∀ c ∈ pad4 n, c.isDigit := by
  intro c hc
  simp only [pad4, List.mem_cons, List.not_mem_nil, or_false] at hc
  rcases hc with h | h | h | h <;> subst h <;>
    exact digitChar_isDigit _ (Nat.mod_lt _ (by omega))

theorem pad2_inj (a b : Nat) (ha : a ≤ 99) (hb : b ≤ 99) (h : pad2 a = pad2 b) : a = b := by
  simp only [pad2, List.cons.injEq, and_true] at h
  obtain ⟨h1, h2⟩ := h
  have e1 := digitChar_inj _ _ (Nat.mod_lt _ (by omega)) (Nat.mod_lt _ (by omega)) h1
  have e2 := digitChar_inj _ _ (Nat.mod_lt _ (by omega)) (Nat.mod_lt _ (by omega)) h2
  omega

theorem pad4_inj (a b : Nat) (ha : a ≤ 9999) (hb : b ≤ 9999) (h : pad4 a = pad4 b) :
    a = b := by
  simp only [pad4, List.cons.injEq, and_true] at h
  obtain ⟨h1, h2, h3, h4⟩ := h
  have e1 := digitChar_inj _ _ (Nat.mod_lt _ (by omega)) (Nat.mod_lt _ (by omega)) h1
  have e2 := digitChar_inj _ _ (Nat.mod_lt _ (by omega)) (Nat.mod_lt _ (by omega)) h2
  have e3 := digitChar_inj _ _ (Nat.mod_lt _ (by omega)) (Nat.mod_lt _ (by omega)) h3
  have e4 := digitChar_inj _ _ (Nat.mod_lt _ (by omega)) (Nat.mod_lt _ (by omega)) h4
  omega

theorem timestamp_data_length (t : DateTime) : (timestamp_data t).length = 15 := rfl

theorem timestamp_data_inj (t1 t2 : DateTime) (v1 : t1.valid) (v2 : t2.valid)
    (h : timestamp_data t1 = timestamp_data t2) : t1 = t2 := by
  obtain ⟨y1, mo1, d1, hh1, mi1, s1⟩ := t1
  obtain ⟨y2, mo2, d2, hh2, mi2, s2⟩ := t2
  simp only [DateTime.valid] at v1 v2
  simp only [timestamp_data, List.append_assoc] at h
  obtain ⟨hy, h⟩ := List.append_inj h rfl
  obtain ⟨hmo, h⟩ := List.append_inj h rfl
  obtain ⟨hd, h⟩ := List.append_inj h rfl
  injection h with _ h
  obtain ⟨hho, h⟩ := List.append_inj h rfl
  obtain ⟨hmi, hs⟩ := List.append_inj h rfl
  simp only [DateTime.mk.injEq]
  exact ⟨pad4_inj _ _ (by omega) (by omega) hy,
    pad2_inj _ _ (by omega) (by omega) hmo,
    pad2_inj _ _ (by omega) (by omega) hd,
    pad2_inj _ _ (by omega) (by omega) hho,
    pad2_inj _ _ (by omega) (by omega) hmi,
    pad2_inj _ _ (by omega) (by omega) hs⟩

theorem generate_filename_inj (cfg : RecSettings) (t1 t2 : DateTime)
    (v1 : t1.valid) (v2 : t2.valid) (hne : t1 ≠ t2) :
    generate_filename cfg t1 ≠ generate_filename cfg t2 := by
  intro h
  apply hne
  apply timestamp_data_inj t1 t2 v1 v2
  have hd : generate_filename_data cfg t1 = generate_filename_data cfg t2 :=
    congrArg String.data h
  unfold generate_filename_data at hd
  have h2 := List.append_cancel_left hd
  injection h2 with _ h3
  simp only [List.append_assoc] at h3
  have h4 := List.append_cancel_left h3
  exact (List.append_inj h4
    (by rw [timestamp_data_length, timestamp_data_length])).1

theorem cli_output_file_inj (dir : String) (t1 t2 : DateTime)
    (v1 : t1.valid) (v2 : t2.valid) (hne : t1 ≠ t2) :
    cli_output_file dir t1 ≠ cli_output_file dir t2 := by
  intro h
  apply hne
  apply timestamp_data_inj t1 t2 v1 v2
  have hd : cli_output_file_data dir t1 = cli_output_file_data dir t2 :=
    congrArg String.data h
  unfold cli_output_file_data at hd
  have h2 := List.append_cancel_left hd
  injection h2 with _ h3
  simp only [List.append_assoc] at h3
  have h4 := List.append_cancel_left h3
  exact (List.append_inj h4
    (by rw [timestamp_data_length, timestamp_data_length])).1

theorem timestamp_split (t : DateTime) :
    timestamp_data t =
        (pad4 t.year ++ pad2 t.month ++ pad2 t.day) ++ '_' ::
          (pad2 t.hour ++ pad2 t.minute ++ pad2 t.second) ∧
      (pad4 t.year ++ pad2 t.month ++ pad2 t.day).length = 8 ∧
      (pad2 t.hour ++ pad2 t.minute ++ pad2 t.second).length = 6 ∧
      (∀ c ∈ pad4 t.year ++ pad2 t.month ++ pad2 t.day, c.isDigit) ∧
      (∀ c ∈ pad2 t.hour ++ pad2 t.minute ++ pad2 t.second, c.isDigit) := by
  refine ⟨by simp [timestamp_data, List.append_assoc], rfl, rfl, ?_, ?_⟩
  · intro c hc
    simp only [List.mem_append] at hc
    rcases hc with (h | h) | h
    · exact pad4_digits _ c h
    · exact pad2_digits _ c h
    · exact pad2_digits _ c h
  · intro c hc
    simp only [List.mem_append] at hc
    rcases hc with (h | h) | h <;> exact pad2_digits _ c h

/-- Claim C7: every generated output filename has the shape
`<output_dir>/recording_<8 digits>_<6 digits>.<format>` — fourteen digits of
timestamp split by an underscore — in both the D-Bus variant
(`generate_filename`) and the CLI variant (`main`'s output file, whose
configured container format is `wav`); and two invocations at different
seconds (distinct broken-down times) produce distinct filenames in either
variant. -/
theorem filename_pattern_unique :
    (∀ (cfg : RecSettings) (t : DateTime), t.valid →
       ∃ d8 d6 : List Char,
         generate_filename_data cfg t =
             cfg.output_dir.data ++ '/' ::
               (recording_lit ++ (d8 ++ '_' :: d6) ++ '.' :: cfg.format.data) ∧
           d8.length = 8 ∧ d6.length = 6 ∧
           (∀ c ∈ d8, c.isDigit) ∧ (∀ c ∈ d6, c.isDigit)) ∧
    (∀ (dir : String) (t : DateTime), t.valid →
       ∃ d8 d6 : List Char,
         cli_output_file_data dir t =
             dir.data ++ '/' ::
               (recording_lit ++ (d8 ++ '_' :: d6) ++ '.' :: ['w','a','v']) ∧
           d8.length = 8 ∧ d6.length = 6 ∧
           (∀ c ∈ d8, c.isDigit) ∧ (∀ c ∈ d6, c.isDigit)) ∧
    (∀ (cfg : RecSettings) (t1 t2 : DateTime), t1.valid → t2.valid → t1 ≠ t2 →
       generate_filename cfg t1 ≠ generate_filename cfg t2) ∧
    (∀ (dir : String) (t1 t2 : DateTime), t1.valid → t2.valid → t1 ≠ t2 →
       cli_output_file dir t1 ≠ cli_output_file dir t2) := by
  refine ⟨?_, ?_, generate_filename_inj, cli_output_file_inj⟩
  · intro cfg t _
    obtain ⟨hsplit, h8, h6, hd8, hd6⟩ := timestamp_split t
    exact ⟨_, _, by rw [generate_filename_data, hsplit], h8, h6, hd8, hd6⟩
  · intro dir t _
    obtain ⟨hsplit, h8, h6, hd8, hd6⟩ := timestamp_split t
    exact ⟨_, _, by rw [cli_output_file_data, hsplit], h8, h6, hd8, hd6⟩

/-- Witness for C7 at concrete times one second apart. -/
theorem filename_pattern_unique_witness :
    dt0.valid ∧ dt1.valid ∧ dt0 ≠ dt1 ∧
      generate_filename cfg0 dt0 ≠ generate_filename cfg0 dt1 ∧
      cli_output_file "/tmp/rec" dt0 ≠ cli_output_file "/tmp/rec" dt1 :=
  ⟨by decide, by decide, by decide,
    filename_pattern_unique.2.2.1 cfg0 dt0 dt1 (by decide) (by decide) (by decide),
    filename_pattern_unique.2.2.2 "/tmp/rec" dt0 dt1 (by decide) (by decide) (by decide)⟩

/-! ### Claim C8 -/

theorem isFormatArg_str_of_nat (n : Nat) : isFormatArg (str_of_nat n) = false := by
  have hgoal : isFormatArg (str_of_nat n) =
      List.isPrefixOf ['-','-','f','o','r','m','a','t','='] (natChars n) := rfl
  rw [hgoal]
  cases hnc : natChars n with
  | nil => rfl
  | cons c rest =>
      have hc : c.isDigit := natChars_digits n c (hnc ▸ List.mem_cons_self c rest)
      have hne : ('-' == c) = false := by
        rw [beq_eq_false_iff_ne]
        intro he
        rw [← he] at hc
        exact absurd hc (by decide)
      simp [List.isPrefixOf, hne]

theorem parec_base_no_format (cfg : CliSettings) (d : Nat) :
    (parec_base cfg d).filter isFormatArg = [] := by
  have h1 : isFormatArg "parec" = false := rfl
  have h2 : isFormatArg "--device=recording_sink.monitor" = false := rfl
  have h3 : isFormatArg "-d" = false := rfl
  have h4 : isFormatArg "--channels" = false := rfl
  have h5 : isFormatArg "--rate" = false := rfl
  have h6 : isFormatArg "--file-format=wav" = false := rfl
  simp [parec_base, List.filter_cons, h1, h2, h3, h4, h5, h6, isFormatArg_str_of_nat]

/-- Claim C8: the bit-depth setting selects the capture format flag of the
`parec` command (`cmd.dropLast` is the command without its trailing
caller-supplied output-file argument): `"16"` adds no `--format=` flag,
`"24"` exactly `--format=s24le`, `"32float"` exactly `--format=float32le`;
any other bit-depth makes `record_audio` fail (`KeyError` on the
`format_flags` lookup) before the capture subprocess is launched, instead
of defaulting. -/
theorem bit_depth_format_flags (cfg : CliSettings) (d : Nat) (out : String) :
    (cfg.bit_depth = "16" →
       ∃ cmd, record_cmd cfg d out = some cmd ∧
         cmd.dropLast = parec_base cfg d ∧
         cmd.dropLast.filter isFormatArg = []) ∧
    (cfg.bit_depth = "24" →
       ∃ cmd, record_cmd cfg d out = some cmd ∧
         cmd.dropLast.filter isFormatArg = ["--format=s24le"]) ∧
    (cfg.bit_depth = "32float" →
       ∃ cmd, record_cmd cfg d out = some cmd ∧
         cmd.dropLast.filter isFormatArg = ["--format=float32le"]) ∧
    (cfg.bit_depth ≠ "16" → cfg.bit_depth ≠ "24" → cfg.bit_depth ≠ "32float" →
       record_cmd cfg d out = none ∧ ∀ subOk, record_audio subOk cfg d out = none) := by
  refine ⟨?_, ?_, ?_, ?_⟩
  · intro h
    refine ⟨parec_base cfg d ++ [] ++ [out], by simp [record_cmd, format_flags, h], ?_, ?_⟩
    · rw [List.append_nil, List.dropLast_concat]
    · rw [List.append_nil, List.dropLast_concat]
      exact parec_base_no_format cfg d
  · intro h
    refine ⟨parec_base cfg d ++ ["--format=s24le"] ++ [out],
      by simp [record_cmd, format_flags, h], ?_⟩
    rw [List.dropLast_concat, List.filter_append, parec_base_no_format]
    rfl
  · intro h
    refine ⟨parec_base cfg d ++ ["--format=float32le"] ++ [out],
      by simp [record_cmd, format_flags, h], ?_⟩
    rw [List.dropLast_concat, List.filter_append, parec_base_no_format]
    rfl
  · intro h16 h24 h32
    have hff : format_flags cfg.bit_depth = none := by
      simp [format_flags, h16, h24, h32]
    exact ⟨by simp [record_cmd, hff], fun subOk => by simp [record_audio, record_cmd, hff]⟩

/-- Witness for C8: a `"24"` configuration gets exactly the s24le flag; an
unknown `"8"` configuration fails before any subprocess launch. -/
theorem bit_depth_format_flags_witness :
    cfgCli24.bit_depth = "24" ∧
      (∃ cmd, record_cmd cfgCli24 10 "/tmp/rec/out.wav" = some cmd ∧
        cmd.dropLast.filter isFormatArg = ["--format=s24le"]) ∧
      (cfgCliBad.bit_depth ≠ "16" ∧ cfgCliBad.bit_depth ≠ "24" ∧
        cfgCliBad.bit_depth ≠ "32float") ∧
      record_cmd cfgCliBad 10 "/tmp/rec/out.wav" = none :=
  ⟨rfl, (bit_depth_format_flags cfgCli24 10 "/tmp/rec/out.wav").2.1 rfl,
    ⟨by decide, by decide, by decide⟩,
    ((bit_depth_format_flags cfgCliBad 10 "/tmp/rec/out.wav").2.2.2
      (by decide) (by decide) (by decide)).1⟩

/-! ### Claim C9 -/

/-- Counterexample to C9 as stated: a run interrupted by the user after a
successful setup exits with code 0, not 1 — `main`'s `except
KeyboardInterrupt` block only prints a message and control falls through to
the final `return 0`. -/
theorem cli_interrupt_exit_zero_counterexample :
    (cli_main envAllOk cfgCli 10 dt0 RunOutcome.interrupted).1 = 0 ∧
      (cli_main envAllOk cfgCli 10 dt0 RunOutcome.interrupted).1 ≠ 1 :=
  ⟨rfl, by decide⟩

/-- Claim C9 (amended): the CLI `main` returns exit code 0 when setup and
the recording subprocess both succeed, exit code 1 when setup fails (for
every outcome of the rest of the run) and when the recording subprocess
fails, but exit code 0 — not 1 — when the run is interrupted by the user
after a successful setup. -/
theorem cli_exit_codes_amended (env : PulseEnv) (cfg : CliSettings) (d : Nat)
    (t : DateTime) :
    ((setup_recording env 0).2 = none →
       ∀ o, (cli_main env cfg d t o).1 = 1) ∧
    (∀ ms, (setup_recording env 0).2 = some ms →
       (format_flags cfg.bit_depth).isSome = true →
       (cli_main env cfg d t (RunOutcome.finished true)).1 = 0) ∧
    (∀ ms, (setup_recording env 0).2 = some ms →
       (cli_main env cfg d t (RunOutcome.finished false)).1 = 1) ∧
    (∀ ms, (setup_recording env 0).2 = some ms →
       (cli_main env cfg d t RunOutcome.interrupted).1 = 0) := by
  rcases hsr : setup_recording env 0 with ⟨evs, res⟩
  refine ⟨?_, ?_, ?_, ?_⟩
  · intro h o
    simp only at h
    subst h
    simp [cli_main, hsr]
  · intro ms hms hflags
    simp only at hms
    subst hms
    obtain ⟨flags, hf⟩ := Option.isSome_iff_exists.mp hflags
    simp [cli_main, hsr, record_audio, record_cmd, hf]
  · intro ms hms
    simp only at hms
    subst hms
    rcases hf : format_flags cfg.bit_depth with _ | flags <;>
      simp [cli_main, hsr, record_audio, record_cmd, hf]
  · intro ms hms
    simp only at hms
    subst hms
    simp [cli_main, hsr]

/-- Witness for the amended C9 on concrete environments: failing setup gives
exit 1, and on an all-succeeding server the three run outcomes give 0, 1, 0. -/
theorem cli_exit_codes_amended_witness :
    (setup_recording envFailThird 0).2 = none ∧
      (cli_main envFailThird cfgCli 10 dt0 (RunOutcome.finished true)).1 = 1 ∧
      (setup_recording envAllOk 0).2 = some [1, 2, 3, 4, 5] ∧
      (format_flags cfgCli.bit_depth).isSome = true ∧
      (cli_main envAllOk cfgCli 10 dt0 (RunOutcome.finished true)).1 = 0 ∧
      (cli_main envAllOk cfgCli 10 dt0 (RunOutcome.finished false)).1 = 1 ∧
      (cli_main envAllOk cfgCli 10 dt0 RunOutcome.interrupted).1 = 0 :=
  ⟨rfl, (cli_exit_codes_amended envFailThird cfgCli 10 dt0).1 rfl _, rfl, rfl,
    (cli_exit_codes_amended envAllOk cfgCli 10 dt0).2.1 [1, 2, 3, 4, 5] rfl rfl,
    (cli_exit_codes_amended envAllOk cfgCli 10 dt0).2.2.1 [1, 2, 3, 4, 5] rfl,
    (cli_exit_codes_amended envAllOk cfgCli 10 dt0).2.2.2 [1, 2, 3, 4, 5] rfl⟩

/-! ### Claims C5 and C6 -/

theorem lookup_append_none {α β : Type} [BEq α] (l1 l2 : List (α × β)) (k : α)
    (h : List.lookup k l1 = none) : List.lookup k (l1 ++ l2) = List.lookup k l2 := by
  induction l1 with
  | nil => rfl
  | cons p r ih =>
      rcases p with ⟨a, b⟩
      cases hb : (k == a) with
      | false =>
          simp [List.lookup, hb] at h ⊢
          exact ih h
      | true => simp [List.lookup, hb] at h

theorem load_settings_missing (home k : String) (f : JObj) (hk : k ∈ knownKeys)
    (hnone : JObj.lookup f k = none) :
    JObj.lookup (load_settings home f) k = JObj.lookup (DEFAULT_CONFIG home) k := by
  simp only [JObj.lookup] at hnone
  fin_cases hk <;>
    simp [load_settings, dictMerge, DEFAULT_CONFIG, JObj.lookup, List.lookup, hnone]

theorem lookup_filter_unknown (home k : String) (f : JObj)
    (hk : JObj.lookup (DEFAULT_CONFIG home) k = none) :
    List.lookup k (f.filter fun p => JObj.lookup (DEFAULT_CONFIG home) p.1 = none) =
      List.lookup k f := by
  induction f with
  | nil => rfl
  | cons p rest ih =>
      rcases p with ⟨k', v⟩
      by_cases hd : JObj.lookup (DEFAULT_CONFIG home) k' = none
      · by_cases hkk : k = k'
        · subst hkk
          simp [List.filter_cons, hd, List.lookup, ih]
        · have hbe : (k == k') = false := beq_eq_false_iff_ne.mpr hkk
          simp [List.filter_cons, hd, List.lookup, hbe, ih]
      · by_cases hkk : k = k'
        · subst hkk; exact absurd hk hd
        · have hbe : (k == k') = false := beq_eq_false_iff_ne.mpr hkk
          simp [List.filter_cons, hd, List.lookup, hbe, ih]

theorem load_settings_unknown (home k : String) (f : JObj) (hk : k ∉ knownKeys) :
    JObj.lookup (load_settings home f) k = JObj.lookup f k := by
  simp only [knownKeys, List.mem_cons, List.not_mem_nil, or_false, not_or] at hk
  obtain ⟨h1, h2, h3, h4, h5, h6⟩ := hk
  have b1 : (k == "output_dir") = false := beq_eq_false_iff_ne.mpr h1
  have b2 : (k == "format") = false := beq_eq_false_iff_ne.mpr h2
  have b3 : (k == "sample_rate") = false := beq_eq_false_iff_ne.mpr h3
  have b4 : (k == "channels") = false := beq_eq_false_iff_ne.mpr h4
  have b5 : (k == "mic_volume") = false := beq_eq_false_iff_ne.mpr h5
  have b6 : (k == "system_volume") = false := beq_eq_false_iff_ne.mpr h6
  have hkD : JObj.lookup (DEFAULT_CONFIG home) k = none := by
    simp [DEFAULT_CONFIG, JObj.lookup, List.lookup, b1, b2, b3, b4, b5, b6]
  have hfil := lookup_filter_unknown home k f hkD
  have hmap : List.lookup k
      ((DEFAULT_CONFIG home).map fun p => (p.1, (JObj.lookup f p.1).getD p.2)) = none := by
    simp [DEFAULT_CONFIG, List.lookup, b1, b2, b3, b4, b5, b6]
  simp only [JObj.lookup] at hmap hfil
  simp only [load_settings, dictMerge, JObj.lookup]
  rw [lookup_append_none _ _ _ hmap]
  exact hfil

/-- Claim C5: for a configuration file holding all known keys (with scalar
values, as `JValue` enforces), load followed by save followed by load yields
settings equal to the saved settings — the saved settings are exactly what
the second load returns. -/
theorem config_load_save_load_roundtrip (home : String) (f : JObj)
    (_hvalid : ∀ k ∈ knownKeys, (JObj.lookup f k).isSome = true) :
    (load_config home
        (save_config (load_config home (some f)).1 (load_config home (some f)).2)).1 =
      (load_config home (some f)).1 := by
  simp only [load_config, save_config]
  simp [load_settings, dictMerge, DEFAULT_CONFIG, JObj.lookup, List.lookup,
    List.filter_filter]

/-- Witness for C5 with a concrete full configuration file. -/
theorem config_load_save_load_roundtrip_witness :
    (∀ k ∈ knownKeys,
        (JObj.lookup
            [("output_dir", JValue.jstr "/tmp/rec"), ("format", JValue.jstr "ogg"),
             ("sample_rate", JValue.jint 48000), ("channels", JValue.jint 1),
             ("mic_volume", JValue.jflo 2), ("system_volume", JValue.jflo 1)] k).isSome
          = true) ∧
      (load_config "/h"
          (save_config
            (load_config "/h" (some
              [("output_dir", JValue.jstr "/tmp/rec"), ("format", JValue.jstr "ogg"),
               ("sample_rate", JValue.jint 48000), ("channels", JValue.jint 1),
               ("mic_volume", JValue.jflo 2), ("system_volume", JValue.jflo 1)])).1
            (load_config "/h" (some
              [("output_dir", JValue.jstr "/tmp/rec"), ("format", JValue.jstr "ogg"),
               ("sample_rate", JValue.jint 48000), ("channels", JValue.jint 1),
               ("mic_volume", JValue.jflo 2), ("system_volume", JValue.jflo 1)])).2)).1 =
        (load_config "/h" (some
          [("output_dir", JValue.jstr "/tmp/rec"), ("format", JValue.jstr "ogg"),
           ("sample_rate", JValue.jint 48000), ("channels", JValue.jint 1),
           ("mic_volume", JValue.jflo 2), ("system_volume", JValue.jflo 1)])).1 :=
  ⟨by decide, config_load_save_load_roundtrip "/h" _ (by decide)⟩

/-- Counterexample to C6 as stated: an unknown key in the file is **not**
ignored — `{**DEFAULT_CONFIG, **json.load(f)}` keeps it, so it appears in
the resulting settings. -/
theorem unknown_key_retained_counterexample :
    JObj.lookup (load_settings "/h" [("bogus", JValue.jint 7)]) "bogus" =
        some (JValue.jint 7) ∧
      ¬ JObj.lookup (load_settings "/h" [("bogus", JValue.jint 7)]) "bogus" = none ∧
      "bogus" ∉ knownKeys := by
  refine ⟨by decide, by decide, by decide⟩

/-- Claim C6 (amended): loading a parsed JSON configuration file yields
settings in which every known key absent from the file takes its built-in
default value, while every key of the file that is not a known key is
retained with its file value (rather than being ignored). -/
theorem load_defaults_and_retains_unknown (home : String) (f : JObj) :
    (∀ k ∈ knownKeys, JObj.lookup f k = none →
       JObj.lookup (load_settings home f) k = JObj.lookup (DEFAULT_CONFIG home) k) ∧
    (∀ k, k ∉ knownKeys →
       JObj.lookup (load_settings home f) k = JObj.lookup f k) :=
  ⟨fun k hk hnone => load_settings_missing home k f hk hnone,
    fun k hk => load_settings_unknown home k f hk⟩

/-- Witness for the amended C6: a file holding only an unknown key leaves
`format` at its default and retains the unknown key's value. -/
theorem load_defaults_and_retains_unknown_witness :
    ("format" ∈ knownKeys ∧
        JObj.lookup [("bogus", JValue.jint 7)] "format" = none ∧
        JObj.lookup (load_settings "/h" [("bogus", JValue.jint 7)]) "format" =
          JObj.lookup (DEFAULT_CONFIG "/h") "format") ∧
      ("bogus" ∉ knownKeys ∧
        JObj.lookup (load_settings "/h" [("bogus", JValue.jint 7)]) "bogus" =
          JObj.lookup [("bogus", JValue.jint 7)] "bogus") :=
  ⟨⟨by decide, rfl,
      (load_defaults_and_retains_unknown "/h" [("bogus", JValue.jint 7)]).1 "format"
        (by decide) rfl⟩,
    ⟨by decide,
      (load_defaults_and_retains_unknown "/h" [("bogus", JValue.jint 7)]).2 "bogus"
        (by decide)⟩⟩
